import Mathlib

/-!
Shallow embedding of the mmdetection-mini fragment:
  src/detecter/evaluation/evalhook.py  (class EvalHook)
  src/detecter/dataset/custom.py       (class CustomDataset)
Definitions are translated from the Python source; they are followed by the
theorems settling the claims about the specification.

Modelling conventions:
  - Python ints that are used as counters (iterations, epochs, periods,
    indices) are modelled as Nat; image dimensions as Int.
  - Python float values are modelled as rationals; the builtin float(...)
    coercion is modelled by pyFloat below, with a small decimal-literal
    parser for the string case (enough for the string values the claims
    exercise; strings such as "not-a-number" fail to parse exactly as
    float("not-a-number") raises in Python).
  - Fallible Python code returns Except; an exception value carries the
    information the corresponding Python exception message carries.
  - The hook lifecycle methods read counters from the enclosing runner
    (self.runner / self.trainer in the source, both set by the external
    cvcore framework and modelled as one RunnerState value).
-/

/-- Value of a metric entry as produced by the evaluation callback:
a Python int, float or str. -/
inductive PyVal where
  | int : Int → PyVal
  | float : ℚ → PyVal
  | str : String → PyVal
  deriving DecidableEq, Repr

/-- Numeric value of a list of decimal digit characters. -/
def digitsVal (cs : List Char) : Nat :=
  cs.foldl (fun acc c => acc * 10 + (Char.toNat c - 48)) 0

/-- Decimal-literal parser modelling the string case of the Python builtin
float(...): an optional minus sign, then digits with an optional single
dot-separated fractional part. Returns Option.none when the string does not
parse, modelling the ValueError float(...) raises. -/
def parsePyFloat (s : String) : Option ℚ :=
  let cs := s.toList
  let body := match cs with
    | '-' :: rest => rest
    | _ => cs
  let sign : ℚ := match cs with
    | '-' :: _ => -1
    | _ => 1
  let intPart := body.takeWhile Char.isDigit
  let rest := body.dropWhile Char.isDigit
  match rest with
  | [] =>
    if intPart.isEmpty then Option.none
    else some (sign * (digitsVal intPart : ℚ))
  | '.' :: fracPart =>
    if fracPart.all Char.isDigit && !(intPart.isEmpty && fracPart.isEmpty) then
      some (sign * ((digitsVal intPart : ℚ) + (digitsVal fracPart : ℚ) / (10 : ℚ) ^ fracPart.length))
    else Option.none
  | _ => Option.none

/-- Model of the Python builtin coercion float(v) applied to a metric value:
ints and floats coerce to their numeric value, strings are parsed;
Option.none models the exception float(...) raises on failure. -/
def pyFloat : PyVal → Option PyVal
  | PyVal.int n => some (PyVal.float (n : ℚ))
  | PyVal.float q => some (PyVal.float q)
  | PyVal.str s => (parsePyFloat s).map PyVal.float

mutual
/-- Nested results dictionary returned by the evaluation callback:
a value is either a scalar metric value or a nested dictionary. -/
inductive RVal where
  | scalar : PyVal → RVal
  | dict : RDict → RVal
  deriving DecidableEq, Repr
/-- Ordered entries of a nested results dictionary. -/
inductive RDict where
  | nil : RDict
  | cons : String → RVal → RDict → RDict
  deriving DecidableEq, Repr
end

/-- Qualified key built from an outer key path and an inner key. -/
def joinKey (pre k : String) : String :=
  if pre = "" then k else pre ++ "." ++ k

mutual
/-- Flattening of one entry of a nested results dictionary.
Modelled from the spec: flatten_results_dict lives in detecter/utils/misc.py,
which is not included in src; the spec describes it as flattening the nested
mapping into dotted/qualified scalar keys. -/
def flattenVal (pre k : String) : RVal → List (String × PyVal)
  | RVal.scalar v => [(joinKey pre k, v)]
  | RVal.dict d => flattenDict (joinKey pre k) d
/-- Flattening of a nested results dictionary into dotted scalar keys.
Modelled from the spec (see flattenVal). -/
def flattenDict (pre : String) : RDict → List (String × PyVal)
  | RDict.nil => []
  | RDict.cons k v rest => flattenVal pre k v ++ flattenDict pre rest
end

/-- Top level flattening used by EvalHook, as imported from
detecter/utils/misc.py (modelled from the spec, see flattenVal). -/
def flatten_results_dict (d : RDict) : List (String × PyVal) :=
  flattenDict "" d

/-- Truthiness of the callback result: None and the empty dict are falsy. -/
def resultsTruthy : Option RDict → Bool
  | Option.none => false
  | some RDict.nil => false
  | some (RDict.cons _ _ _) => true

/-- Exception raised by the modelled Python code. -/
inductive PyError where
  | valueError : String → PyError
  | nameError : String → PyError
  | typeError : String → PyError
  | indexError : PyError
  | evalCoercionFailure : String → PyVal → PyError
  deriving DecidableEq, Repr

/-- Validation loop of EvalHook._do_eval over the flattened results:
for each pair it evaluates float(v); the rebinding v = float(v) in the
source only changes the local variable, flattened_results is untouched.
On failure it raises the ValueError naming the offending key and value
(the source message is: eval_function should return a nested dict of
float, got key: value instead). -/
def coerceLoop : List (String × PyVal) → Except PyError Unit
  | [] => Except.ok ()
  | (k, v) :: rest =>
    match pyFloat v with
    | some _ => coerceLoop rest
    | Option.none => Except.error (PyError.evalCoercionFailure k v)

/-- One call runner.storage.put_scalars(**flattened_results, smoothing_hint=False):
the scalars passed are the original flattened values. -/
structure PutScalarsCall where
  scalars : List (String × PyVal)
  smoothing_hint : Bool
  deriving DecidableEq, Repr

/-- Observable effects of one successful EvalHook._do_eval call: the optional
metrics-store publication and the distributed barrier. A raised exception
propagates before the barrier, so the error case of do_eval carries no
effects at all (nothing published, no barrier reached). -/
structure EvalEffects where
  publish : Option PutScalarsCall
  barrier : Bool
  deriving DecidableEq, Repr

/-- Model of EvalHook._do_eval: call the evaluation callback (its result is
the argument), and if the result is truthy, flatten it, validate every value
with float(...), then publish the original flattened values with
smoothing_hint=False; finally synchronize at the distributed barrier.
The isinstance dict assertion of the source holds by typing here. -/
def do_eval (results : Option RDict) : Except PyError EvalEffects :=
  if resultsTruthy results then
    match results with
    | Option.none => Except.error (PyError.typeError "unreachable")
    | some d =>
      let flattened := flatten_results_dict d
      match coerceLoop flattened with
      | Except.error e => Except.error e
      | Except.ok _ =>
        Except.ok { publish := some { scalars := flattened, smoothing_hint := false }, barrier := true }
  else
    Except.ok { publish := Option.none, barrier := true }

/-- Counters of the enclosing runner, as read through self.runner and
self.trainer by the hook (both references point at the enclosing run). -/
structure RunnerState where
  iter : Nat
  max_iter : Nat
  epoch : Nat
  max_epoch : Nat
  deriving DecidableEq, Repr

/-- Model of EvalHook.after_val_iter: returns whether _do_eval (and hence the
evaluation callback, which _do_eval invokes first) runs during the event. -/
def after_val_iter_runs_eval (by_epoch : Bool) (eval_period : Nat) (r : RunnerState) : Bool :=
  if !by_epoch then
    let next_iter := r.iter + 1
    if eval_period > 0 && next_iter % eval_period == 0 then
      -- do the last eval in after_train
      if next_iter != r.max_iter then true else false
    else false
  else false

/-- Model of EvalHook.after_val_epoch: returns whether _do_eval runs. -/
def after_val_epoch_runs_eval (by_epoch : Bool) (eval_period : Nat) (r : RunnerState) : Bool :=
  if by_epoch then
    let next_epoch := r.epoch + 1
    if eval_period > 0 && next_epoch % eval_period == 0 then
      -- do the last eval in after_train
      if next_epoch != r.max_epoch then true else false
    else false
  else false

/-- Model of EvalHook.after_run: returns whether _do_eval runs (the source
reads max_epoch through self.trainer, the same enclosing run). -/
def after_run_runs_eval (by_epoch : Bool) (r : RunnerState) : Bool :=
  if by_epoch then
    r.epoch + 1 ≥ r.max_epoch
  else
    r.iter + 1 ≥ r.max_iter

/-- Epochs (numbered 1..max_epoch) after which the periodic by-epoch path
runs evaluation over a full run: after epoch e+1 finishes, after_val_epoch is
called with runner.epoch = e, for e = 0..max_epoch-1. -/
def by_epoch_periodic_eval_epochs (eval_period max_epoch : Nat) : List Nat :=
  (List.range max_epoch).filterMap (fun e =>
    if after_val_epoch_runs_eval true eval_period
        { iter := 0, max_iter := 0, epoch := e, max_epoch := max_epoch } then
      some (e + 1)
    else Option.none)

/-- The img_info part of one data-info record: image width and height
(the file path plays no role in the claims and is omitted). -/
structure ImgInfo where
  width : Int
  height : Int
  deriving DecidableEq, Repr

/-- One data-info record of CustomDataset. Besides img_info it carries the
two context keys that pre_pipeline injects into the very record dictionary
stored in data_infos (the source aliases results = self.data_infos[idx] and
mutates it in place); Option.none means the key is absent. In the source the
keys are named img_prefix and bbox_fields. -/
structure DataInfo where
  img_info : ImgInfo
  img_prefix_entry : Option String := Option.none
  bbox_fields : Option (List String) := Option.none
  deriving DecidableEq, Repr

/-- Argument accepted by CustomDataset.get_classes: None, a string (file
path), a tuple or list of names, or a value of any other type (recorded by
the name of that type, which only feeds the error message). -/
inductive ClassesArg where
  | noneArg : ClassesArg
  | strArg : String → ClassesArg
  | seqArg : List String → ClassesArg
  | otherArg : String → ClassesArg
  deriving DecidableEq, Repr

/-- Model of CustomDataset.get_classes. cls_CLASSES is the class-level
CLASSES attribute. The string branch of the source calls
mmcv.list_from_file(classes), but custom.py never imports mmcv, so executing
that branch raises NameError: name mmcv is not defined, before any file is
read. The final branch raises ValueError about the unsupported type. -/
def get_classes (cls_CLASSES : Option (List String)) :
    ClassesArg → Except PyError (Option (List String))
  | ClassesArg.noneArg => Except.ok cls_CLASSES
  | ClassesArg.strArg _ => Except.error (PyError.nameError "mmcv")
  | ClassesArg.seqArg names => Except.ok (some names)
  | ClassesArg.otherArg t =>
      Except.error (PyError.valueError ("Unsupported type " ++ t ++ " of classes."))

/-- Loop body of CustomDataset._filter_imgs: enumerate data_infos from index
i and keep indices whose image satisfies min(width, height) >= min_size.
The filter_empty_gt warning of the source is a side effect with no bearing
on the result and is not modelled. -/
def filter_imgs_loop (min_size : Int) : Nat → List DataInfo → List Nat
  | _, [] => []
  | i, result :: rest =>
    if min_size ≤ min result.img_info.width result.img_info.height then
      i :: filter_imgs_loop min_size (i + 1) rest
    else
      filter_imgs_loop min_size (i + 1) rest

/-- Model of CustomDataset._filter_imgs with its default min_size=32. -/
def filter_imgs (data_infos : List DataInfo) : List Nat :=
  filter_imgs_loop 32 0 data_infos

/-- State of a constructed CustomDataset. data_infos is Option-valued
because the base load_annotations returns None; img_prefix_path models the
attribute named img_prefix in the source. The pipeline is the external
Compose object and is passed separately to the operations that call it. -/
structure CustomDatasetState where
  CLASSES : Option (List String)
  data_infos : Option (List DataInfo)
  img_prefix_path : String
  test_mode : Bool
  filter_empty_gt : Bool
  deriving DecidableEq, Repr

/-- Model of CustomDataset.pre_pipeline: sets the img_prefix and bbox_fields
keys on the given results record (which in the source is the stored record
itself, mutated in place). -/
def pre_pipeline (ds : CustomDatasetState) (results : DataInfo) : DataInfo :=
  { results with
      img_prefix_entry := some ds.img_prefix_path
      bbox_fields := some [] }

/-- Model of CustomDataset.prepare_img. The source binds
results = self.data_infos[idx] without copying, so the pre_pipeline key
injection mutates the stored record: the returned state has the record at
idx replaced by its pre_pipeline image. The external pipeline (Compose) is
a parameter; Option.none as its result models a pipeline that signals an
invalid sample by returning None. Errors: data_infos is None only in the
base class (TypeError on subscripting None), an out-of-range index raises
IndexError. -/
def prepare_img (pipe : DataInfo → Option DataInfo) (ds : CustomDatasetState)
    (idx : Nat) : Except PyError (Option DataInfo × CustomDatasetState) :=
  match ds.data_infos with
  | Option.none => Except.error (PyError.typeError "NoneType object is not subscriptable")
  | some infos =>
    match infos[idx]? with
    | Option.none => Except.error PyError.indexError
    | some results =>
      let results2 := pre_pipeline ds results
      let ds2 := { ds with data_infos := some (infos.set idx results2) }
      Except.ok (pipe results2, ds2)

/-- Outcome of CustomDataset.__getitem__ in the model. -/
inductive GetItemOutcome where
  | returns : Option DataInfo → CustomDatasetState → GetItemOutcome
  | raises : PyError → GetItemOutcome
  | runsOut : CustomDatasetState → GetItemOutcome
  deriving DecidableEq, Repr

/-- Training-mode while-True loop of CustomDataset.__getitem__. Successive
return values of _rand_another (np.random.choice(len(self)), uniform over
the index range) are supplied as the oracle list draws; runsOut models the
cut-off where the modelled oracle is exhausted while the Python loop would
keep spinning. -/
def getitem_loop (pipe : DataInfo → Option DataInfo) :
    CustomDatasetState → Nat → List Nat → GetItemOutcome
  | ds, idx, [] =>
    match prepare_img pipe ds idx with
    | Except.error e => GetItemOutcome.raises e
    | Except.ok (some data, ds2) => GetItemOutcome.returns (some data) ds2
    | Except.ok (Option.none, ds2) => GetItemOutcome.runsOut ds2
  | ds, idx, d :: rest =>
    match prepare_img pipe ds idx with
    | Except.error e => GetItemOutcome.raises e
    | Except.ok (some data, ds2) => GetItemOutcome.returns (some data) ds2
    | Except.ok (Option.none, ds2) => getitem_loop pipe ds2 d rest

/-- Model of CustomDataset.__getitem__: in test mode return the prepared
sample unconditionally (even Option.none); otherwise run the retry loop. -/
def getitem (pipe : DataInfo → Option DataInfo) (ds : CustomDatasetState)
    (draws : List Nat) (idx : Nat) : GetItemOutcome :=
  if ds.test_mode then
    match prepare_img pipe ds idx with
    | Except.error e => GetItemOutcome.raises e
    | Except.ok (data, ds2) => GetItemOutcome.returns data ds2
  else
    getitem_loop pipe ds idx draws

/-- Number of pipeline invocations performed by getitem_loop (the pipeline
is invoked exactly when prepare_img succeeds). -/
def getitem_loop_pipeline_calls (pipe : DataInfo → Option DataInfo) :
    CustomDatasetState → Nat → List Nat → Nat
  | ds, idx, [] =>
    match prepare_img pipe ds idx with
    | Except.error _ => 0
    | Except.ok _ => 1
  | ds, idx, d :: rest =>
    match prepare_img pipe ds idx with
    | Except.error _ => 0
    | Except.ok (some _, _) => 1
    | Except.ok (Option.none, ds2) => 1 + getitem_loop_pipeline_calls pipe ds2 d rest

/-- Number of pipeline invocations performed by getitem. -/
def getitem_pipeline_calls (pipe : DataInfo → Option DataInfo)
    (ds : CustomDatasetState) (draws : List Nat) (idx : Nat) : Nat :=
  if ds.test_mode then
    match prepare_img pipe ds idx with
    | Except.error _ => 0
    | Except.ok _ => 1
  else
    getitem_loop_pipeline_calls pipe ds idx draws

/-- Validity of the pipeline outcome at index i of the given record list
when prepared with the given dataset (pre_pipeline then pipeline). -/
def pipeValidAt (pipe : DataInfo → Option DataInfo) (ds : CustomDatasetState)
    (infos : List DataInfo) (i : Nat) : Bool :=
  match infos[i]? with
  | some r => (pipe (pre_pipeline ds r)).isSome
  | Option.none => false

/-- Model of the base CustomDataset.load_annotations: the body is pass, so
it returns None for every annotation file. -/
def load_annotations_base (_ann_file : String) : Option (List DataInfo) :=
  Option.none

/-- POSIX model of os.path.isabs used by the constructor. -/
def osp_isabs (p : String) : Bool :=
  p.startsWith "/"

/-- POSIX model of os.path.join for the two-argument calls of the
constructor (sufficient for path arguments without trailing slashes). -/
def osp_join (a b : String) : String :=
  if osp_isabs b then b else a ++ "/" ++ b

/-- Model of CustomDataset.__init__. The subclass override point
load_annotations is a parameter; the base class passes
load_annotations_base. Steps, in source order: resolve CLASSES through
get_classes (propagating its exceptions), join ann_file and img_prefix
against data_root when given, load the annotations, and in non-test mode
filter the records through _filter_imgs and rebuild data_infos from the
valid indices; iterating over a None data_infos in _filter_imgs raises
TypeError. The Compose pipeline construction is external and not part of
the state. -/
def customDataset_init (load_annotations : String → Option (List DataInfo))
    (cls_CLASSES : Option (List String)) (ann_file : String)
    (classes : ClassesArg) (data_root : Option String)
    (img_prefix_arg : String) (test_mode : Bool) (filter_empty_gt : Bool) :
    Except PyError CustomDatasetState :=
  match get_classes cls_CLASSES classes with
  | Except.error e => Except.error e
  | Except.ok CLASSES =>
    let ann_file2 := match data_root with
      | Option.none => ann_file
      | some root => if osp_isabs ann_file then ann_file else osp_join root ann_file
    let img_prefix2 := match data_root with
      | Option.none => img_prefix_arg
      | some root => if osp_isabs img_prefix_arg then img_prefix_arg else osp_join root img_prefix_arg
    let data_infos := load_annotations ann_file2
    if test_mode then
      Except.ok { CLASSES := CLASSES, data_infos := data_infos,
                  img_prefix_path := img_prefix2, test_mode := test_mode,
                  filter_empty_gt := filter_empty_gt }
    else
      match data_infos with
      | Option.none => Except.error (PyError.typeError "NoneType object is not iterable")
      | some infos =>
        let valid_inds := filter_imgs infos
        let filtered := valid_inds.filterMap (fun i => infos[i]?)
        Except.ok { CLASSES := CLASSES, data_infos := some filtered,
                    img_prefix_path := img_prefix2, test_mode := test_mode,
                    filter_empty_gt := filter_empty_gt }

/-- Size predicate applied by _filter_imgs with its default min_size=32. -/
def keepsRecord (r : DataInfo) : Bool :=
  decide (32 ≤ min r.img_info.width r.img_info.height)

/-! ## Helper lemmas -/

theorem coerceLoop_ok_of_all (l : List (String × PyVal))
    (h : ∀ kv ∈ l, (pyFloat kv.2).isSome = true) : coerceLoop l = Except.ok () := by
  induction l with
  | nil => rfl
  | cons kv rest ih =>
    obtain ⟨k, v⟩ := kv
    have hv := h (k, v) (List.mem_cons_self _ _)
    unfold coerceLoop
    cases hf : pyFloat v with
    | none => rw [hf] at hv; simp [Option.isSome] at hv
    | some w => exact ih (fun kv hkv => h kv (List.mem_cons_of_mem _ hkv))

theorem coerceLoop_error_of_bad (l : List (String × PyVal))
    (h : ∃ kv ∈ l, pyFloat kv.2 = Option.none) :
    ∃ k v, (k, v) ∈ l ∧ pyFloat v = Option.none ∧
      coerceLoop l = Except.error (PyError.evalCoercionFailure k v) := by
  induction l with
  | nil => simp at h
  | cons kv rest ih =>
    obtain ⟨k0, v0⟩ := kv
    cases hf : pyFloat v0 with
    | none =>
      exact ⟨k0, v0, List.mem_cons_self _ _, hf, by unfold coerceLoop; rw [hf]⟩
    | some w =>
      obtain ⟨⟨k1, v1⟩, hmem, hbad⟩ := h
      rcases List.mem_cons.mp hmem with heq | hmem2
      · exfalso
        have : v1 = v0 := congrArg Prod.snd heq
        rw [this, hf] at hbad
        exact Option.noConfusion hbad
      · obtain ⟨k, v, hm, hb, hloop⟩ := ih ⟨(k1, v1), hmem2, hbad⟩
        exact ⟨k, v, List.mem_cons_of_mem _ hm, hb, by unfold coerceLoop; rw [hf]; exact hloop⟩

theorem filter_imgs_loop_gather :
    ∀ (l pre : List DataInfo),
      List.filterMap (fun i => (pre ++ l)[i]?) (filter_imgs_loop 32 pre.length l) =
        List.filter keepsRecord l := by
  intro l
  induction l with
  | nil => intro pre; simp [filter_imgs_loop]
  | cons r rest ih =>
    intro pre
    have hcons : pre ++ r :: rest = (pre ++ [r]) ++ rest := by
      rw [List.append_cons]
    have hlen : pre.length + 1 = (pre ++ [r]).length := by simp
    have hlook : (pre ++ r :: rest)[pre.length]? = some r := by
      rw [List.getElem?_append_right (Nat.le_refl _)]
      simp
    cases hk : keepsRecord r with
    | true =>
      have hp : (32 : Int) ≤ min r.img_info.width r.img_info.height := of_decide_eq_true hk
      have hstep : filter_imgs_loop 32 pre.length (r :: rest) =
          pre.length :: filter_imgs_loop 32 (pre.length + 1) rest := by
        simp only [filter_imgs_loop]
        rw [if_pos hp]
      rw [hstep]
      simp only [List.filterMap_cons, hlook]
      rw [hcons, hlen, ih (pre ++ [r]), List.filter_cons_of_pos hk]
    | false =>
      have hp : ¬ (32 : Int) ≤ min r.img_info.width r.img_info.height := by
        intro hcontra
        have hk2 : decide ((32 : Int) ≤ min r.img_info.width r.img_info.height) = false := hk
        rw [decide_eq_true hcontra] at hk2
        exact Bool.noConfusion hk2
      have hstep : filter_imgs_loop 32 pre.length (r :: rest) =
          filter_imgs_loop 32 (pre.length + 1) rest := by
        simp only [filter_imgs_loop]
        rw [if_neg hp]
      rw [hstep, hcons, hlen, ih (pre ++ [r]),
        List.filter_cons_of_neg (by rw [hk]; exact Bool.false_ne_true)]

theorem gather_filter_imgs (infos : List DataInfo) :
    List.filterMap (fun i => infos[i]?) (filter_imgs infos) = infos.filter keepsRecord := by
  have h := filter_imgs_loop_gather infos []
  simpa [filter_imgs] using h

/-! ## Claim theorems -/

/-- C1: for every after-a-validation-iteration lifecycle event on an EvalHook
constructed with by_epoch = false, the evaluation callback is invoked during
that event if and only if period > 0, (current_iter + 1) mod period = 0 and
current_iter + 1 differs from the configured max_iter of the runner. -/
theorem after_val_iter_eval_iff (eval_period : Nat) (r : RunnerState) :
    after_val_iter_runs_eval false eval_period r = true ↔
      (0 < eval_period ∧ (r.iter + 1) % eval_period = 0 ∧ r.iter + 1 ≠ r.max_iter) := by
  simp [after_val_iter_runs_eval]
  tauto

/-- C2: with by_epoch = true, period = 2 and max_epoch = 10, over a full run
the periodic after-a-validation-epoch path runs evaluation exactly after
epochs 2, 4, 6 and 8, the end-of-run path runs it after epoch 10 (runner
epoch counter 9), and the periodic path does not also fire at epoch 10,
so no double evaluation happens there. -/
theorem by_epoch_period2_max10_run :
    by_epoch_periodic_eval_epochs 2 10 = [2, 4, 6, 8] ∧
    after_run_runs_eval true { iter := 0, max_iter := 0, epoch := 9, max_epoch := 10 } = true ∧
    after_val_epoch_runs_eval true 2 { iter := 0, max_iter := 0, epoch := 9, max_epoch := 10 } = false := by
  decide

/-- C3: whenever the callback returns a non-empty nested mapping containing
at least one value that float(...) cannot coerce, _do_eval raises the
ValueError carrying an offending flattened key and its value, and returns no
effects: nothing is published to the metrics store in that pass (the error
case of do_eval carries no publication). -/
theorem do_eval_coercion_failure (d : RDict)
    (hne : d ≠ RDict.nil)
    (hbad : ∃ kv ∈ flatten_results_dict d, pyFloat kv.2 = Option.none) :
    ∃ k v, (k, v) ∈ flatten_results_dict d ∧ pyFloat v = Option.none ∧
      do_eval (some d) = Except.error (PyError.evalCoercionFailure k v) := by
  obtain ⟨k, v, hmem, hb, hloop⟩ := coerceLoop_error_of_bad _ hbad
  refine ⟨k, v, hmem, hb, ?_⟩
  cases d with
  | nil => exact absurd rfl hne
  | cons k0 v0 rest0 =>
    simp only [do_eval, resultsTruthy, eq_self_iff_true, ite_true, hloop]

/-- Witness for C3 at the callback result of the spec example, the nested
dict mapping bbox to the dict mapping mAP to the string not-a-number. -/
theorem do_eval_coercion_failure_witness :
    (RDict.cons "bbox" (RVal.dict (RDict.cons "mAP" (RVal.scalar (PyVal.str "not-a-number")) RDict.nil)) RDict.nil ≠ RDict.nil) ∧
    (∃ k v,
      (k, v) ∈ flatten_results_dict
        (RDict.cons "bbox" (RVal.dict (RDict.cons "mAP" (RVal.scalar (PyVal.str "not-a-number")) RDict.nil)) RDict.nil) ∧
      pyFloat v = Option.none ∧
      do_eval (some (RDict.cons "bbox" (RVal.dict (RDict.cons "mAP" (RVal.scalar (PyVal.str "not-a-number")) RDict.nil)) RDict.nil)) =
        Except.error (PyError.evalCoercionFailure k v)) :=
  ⟨by decide, do_eval_coercion_failure _ (by decide) (by decide)⟩

/-- C4 counterexample: the callback result mapping bbox to the dict mapping
mAP to the string 2 has every value coercible to a floating-point number,
yet the value published for the flattened key is the original string, not
its floating-point coercion (and not a float at all): the source rebinds
the local v to float(v) without writing it back into flattened_results. -/
theorem do_eval_publishes_uncoerced_value :
    do_eval (some (RDict.cons "bbox" (RVal.dict (RDict.cons "mAP" (RVal.scalar (PyVal.str "2")) RDict.nil)) RDict.nil)) =
      Except.ok { publish := some { scalars := [("bbox.mAP", PyVal.str "2")], smoothing_hint := false },
                  barrier := true } ∧
    pyFloat (PyVal.str "2") = some (PyVal.float 2) ∧
    (∀ q : ℚ, PyVal.str "2" ≠ PyVal.float q) := by
  refine ⟨rfl, ?_, ?_⟩
  · simp [pyFloat, parsePyFloat, digitsVal, List.takeWhile, List.dropWhile]
  · intro q h
    exact PyVal.noConfusion h

/-- C4 amended: for every evaluation pass whose callback returns a non-empty
nested mapping with all values float-coercible, the pass succeeds and the
values published to the metrics store are the original callback-returned
flattened values (the coercion results are discarded by the source, so the
published scalars are not necessarily floats), published with
smoothing_hint = False, followed by the barrier. -/
theorem do_eval_publishes_originals (d : RDict)
    (hne : d ≠ RDict.nil)
    (hall : ∀ kv ∈ flatten_results_dict d, (pyFloat kv.2).isSome = true) :
    do_eval (some d) =
      Except.ok { publish := some { scalars := flatten_results_dict d, smoothing_hint := false },
                  barrier := true } := by
  have hok := coerceLoop_ok_of_all _ hall
  cases d with
  | nil => exact absurd rfl hne
  | cons k0 v0 rest0 =>
    simp only [do_eval, resultsTruthy, eq_self_iff_true, ite_true, hok]

/-- Witness for the amended C4 at the callback result mapping bbox to the
dict mapping mAP to the int 2. -/
theorem do_eval_publishes_originals_witness :
    (RDict.cons "bbox" (RVal.dict (RDict.cons "mAP" (RVal.scalar (PyVal.int 2)) RDict.nil)) RDict.nil ≠ RDict.nil) ∧
    do_eval (some (RDict.cons "bbox" (RVal.dict (RDict.cons "mAP" (RVal.scalar (PyVal.int 2)) RDict.nil)) RDict.nil)) =
      Except.ok { publish := some { scalars := [("bbox.mAP", PyVal.int 2)], smoothing_hint := false },
                  barrier := true } :=
  ⟨by decide, do_eval_publishes_originals _ (by decide) (by decide)⟩

/-- C5: resolution behavior of CustomDataset.get_classes on the four
argument shapes. None returns the class-level default and a sequence is
returned as-is, as the claim states; a value of another type raises the
invalid-argument ValueError; but a string argument raises NameError (the
module never imports mmcv), instead of reading class names from the file as
the docstring and the claim state: the code contradicts its documentation. -/
theorem get_classes_resolution (cls : Option (List String)) (path t : String)
    (names : List String) :
    get_classes cls ClassesArg.noneArg = Except.ok cls ∧
    get_classes cls (ClassesArg.seqArg names) = Except.ok (some names) ∧
    get_classes cls (ClassesArg.otherArg t) =
      Except.error (PyError.valueError ("Unsupported type " ++ t ++ " of classes.")) ∧
    get_classes cls (ClassesArg.strArg path) = Except.error (PyError.nameError "mmcv") :=
  ⟨rfl, rfl, rfl, rfl⟩

/-- C6: for every dataset constructed with test_mode = false (over an
arbitrary record sequence produced by the subclass load_annotations
override), construction succeeds and the retained data-info sequence is
exactly the loaded records whose image satisfies min(width, height) >= 32,
in their original relative order (a sublist of the loaded sequence). -/
theorem dataset_init_filters_records (infos : List DataInfo)
    (cls : Option (List String)) (af ip : String) (droot : Option String)
    (fegt : Bool) :
    ∃ ds, customDataset_init (fun _ => some infos) cls af ClassesArg.noneArg droot ip false fegt =
        Except.ok ds ∧
      ds.data_infos = some (infos.filter keepsRecord) ∧
      (∀ r ∈ infos.filter keepsRecord, (32 : Int) ≤ min r.img_info.width r.img_info.height) ∧
      (infos.filter keepsRecord).Sublist infos := by
  refine ⟨_, rfl, ?_, ?_, ?_⟩
  · show some (List.filterMap (fun i => infos[i]?) (filter_imgs infos)) = some (infos.filter keepsRecord)
    rw [gather_filter_imgs]
  · intro r hr
    exact of_decide_eq_true ((List.mem_filter.mp hr).2)
  · exact List.filter_sublist _

/-- C7: in test mode, for every in-range index, getitem runs the pipeline
exactly once on the (pre_pipeline-prepared) record at that index and
returns that single pipeline result unconditionally, whatever it is
(including Option.none for an invalid sample); the result does not depend
on the random-draw oracle, so no retry or index replacement occurs. -/
theorem getitem_test_mode_no_retry (pipe : DataInfo → Option DataInfo)
    (ds : CustomDatasetState) (infos : List DataInfo) (draws : List Nat)
    (idx : Nat) (r : DataInfo)
    (hmode : ds.test_mode = true)
    (hinfos : ds.data_infos = some infos)
    (hr : infos[idx]? = some r) :
    getitem pipe ds draws idx =
      GetItemOutcome.returns (pipe (pre_pipeline ds r))
        { ds with data_infos := some (infos.set idx (pre_pipeline ds r)) } ∧
    getitem_pipeline_calls pipe ds draws idx = 1 := by
  constructor
  · simp only [getitem, hmode, eq_self_iff_true, ite_true, prepare_img, hinfos, hr]
  · simp only [getitem_pipeline_calls, hmode, eq_self_iff_true, ite_true, prepare_img, hinfos, hr]

/-- Witness for C7: a one-record test-mode dataset whose pipeline always
signals invalid; getitem still returns that single Option.none result. -/
theorem getitem_test_mode_no_retry_witness :
    ({ CLASSES := Option.none, data_infos := some [{ img_info := { width := 64, height := 48 } }],
       img_prefix_path := "val2017", test_mode := true,
       filter_empty_gt := true } : CustomDatasetState).test_mode = true ∧
    ([({ img_info := { width := 64, height := 48 } } : DataInfo)][0]? =
      some { img_info := { width := 64, height := 48 } }) ∧
    getitem (fun _ => Option.none)
        { CLASSES := Option.none, data_infos := some [{ img_info := { width := 64, height := 48 } }],
          img_prefix_path := "val2017", test_mode := true, filter_empty_gt := true } [3, 7] 0 =
      GetItemOutcome.returns Option.none
        { CLASSES := Option.none,
          data_infos := some [{ img_info := { width := 64, height := 48 },
                                img_prefix_entry := some "val2017", bbox_fields := some [] }],
          img_prefix_path := "val2017", test_mode := true, filter_empty_gt := true } ∧
    getitem_pipeline_calls (fun _ => Option.none)
        { CLASSES := Option.none, data_infos := some [{ img_info := { width := 64, height := 48 } }],
          img_prefix_path := "val2017", test_mode := true, filter_empty_gt := true } [3, 7] 0 = 1 := by
  refine ⟨rfl, rfl, ?_⟩
  exact getitem_test_mode_no_retry (fun _ => Option.none)
    { CLASSES := Option.none, data_infos := some [{ img_info := { width := 64, height := 48 } }],
      img_prefix_path := "val2017", test_mode := true, filter_empty_gt := true }
    [{ img_info := { width := 64, height := 48 } }] [3, 7] 0
    { img_info := { width := 64, height := 48 } } rfl rfl rfl

/-- C8 counterexample: on a concrete one-record test-mode dataset with an
identity pipeline, getitem at index 0 leaves the dataset with a stored
record that differs from the original one: prepare_img aliases the stored
record and pre_pipeline injects the img_prefix and bbox_fields keys into
it, so retrieval mutates the stored data-info records. -/
theorem getitem_mutates_stored_record :
    getitem (fun r => some r)
        { CLASSES := Option.none, data_infos := some [{ img_info := { width := 64, height := 48 } }],
          img_prefix_path := "imgs", test_mode := true, filter_empty_gt := true } [] 0 =
      GetItemOutcome.returns
        (some { img_info := { width := 64, height := 48 },
                img_prefix_entry := some "imgs", bbox_fields := some [] })
        { CLASSES := Option.none,
          data_infos := some [{ img_info := { width := 64, height := 48 },
                                img_prefix_entry := some "imgs", bbox_fields := some [] }],
          img_prefix_path := "imgs", test_mode := true, filter_empty_gt := true } ∧
    (some [({ img_info := { width := 64, height := 48 },
              img_prefix_entry := some "imgs", bbox_fields := some [] } : DataInfo)] ≠
      some [({ img_info := { width := 64, height := 48 } } : DataInfo)]) := by
  exact ⟨rfl, by decide⟩

/-- C10: constructing the base CustomDataset directly with test_mode = false
always fails with a raised exception: for any classes argument some error is
raised, and with the default classes = None the failure is exactly the
TypeError from _filter_imgs iterating the None returned by the base
load_annotations. -/
theorem base_dataset_init_always_fails (cls : Option (List String))
    (af ip : String) (droot : Option String) (fegt : Bool) (classes : ClassesArg) :
    (∃ e, customDataset_init load_annotations_base cls af classes droot ip false fegt =
      Except.error e) ∧
    customDataset_init load_annotations_base cls af ClassesArg.noneArg droot ip false fegt =
      Except.error (PyError.typeError "NoneType object is not iterable") := by
  constructor
  · cases classes with
    | noneArg => exact ⟨PyError.typeError "NoneType object is not iterable", rfl⟩
    | strArg p => exact ⟨PyError.nameError "mmcv", rfl⟩
    | seqArg names => exact ⟨PyError.typeError "NoneType object is not iterable", rfl⟩
    | otherArg t => exact ⟨PyError.valueError ("Unsupported type " ++ t ++ " of classes."), rfl⟩
  · rfl

theorem pre_pipeline_same_path (ds ds2 : CustomDatasetState)
    (h : ds2.img_prefix_path = ds.img_prefix_path) (x : DataInfo) :
    pre_pipeline ds2 x = pre_pipeline ds x := by
  simp [pre_pipeline, h]

theorem pre_pipeline_idem (ds : CustomDatasetState) (x : DataInfo) :
    pre_pipeline ds (pre_pipeline ds x) = pre_pipeline ds x := rfl

theorem prepared_record_eq (ds ds2 : CustomDatasetState)
    (infos infos2 : List DataInfo) (idx : Nat) (r : DataInfo)
    (hpath : ds2.img_prefix_path = ds.img_prefix_path)
    (hcompat : infos2[idx]? = infos[idx]? ∨ infos2[idx]? = (infos[idx]?).map (pre_pipeline ds))
    (hr : infos[idx]? = some r) :
    ∃ r2, infos2[idx]? = some r2 ∧ pre_pipeline ds2 r2 = pre_pipeline ds r := by
  rcases hcompat with hsame | hmapped
  · exact ⟨r, by rw [hsame, hr], pre_pipeline_same_path ds ds2 hpath r⟩
  · refine ⟨pre_pipeline ds r, by rw [hmapped, hr]; rfl, ?_⟩
    rw [pre_pipeline_same_path ds ds2 hpath (pre_pipeline ds r), pre_pipeline_idem]

theorem getitem_loop_returns_on_valid (pipe : DataInfo → Option DataInfo)
    (ds2 : CustomDatasetState) (infos2 : List DataInfo) (idx : Nat)
    (r2 : DataInfo) (data : DataInfo) (draws : List Nat)
    (hinfos2 : ds2.data_infos = some infos2)
    (hr2 : infos2[idx]? = some r2)
    (hvalid : pipe (pre_pipeline ds2 r2) = some data) :
    getitem_loop pipe ds2 idx draws = GetItemOutcome.returns (some data)
      { ds2 with data_infos := some (infos2.set idx (pre_pipeline ds2 r2)) } := by
  cases draws with
  | nil => simp only [getitem_loop, prepare_img, hinfos2, hr2, hvalid]
  | cons d rest => simp only [getitem_loop, prepare_img, hinfos2, hr2, hvalid]

theorem getitem_loop_step_on_invalid (pipe : DataInfo → Option DataInfo)
    (ds2 : CustomDatasetState) (infos2 : List DataInfo) (idx : Nat)
    (r2 : DataInfo) (d : Nat) (rest : List Nat)
    (hinfos2 : ds2.data_infos = some infos2)
    (hr2 : infos2[idx]? = some r2)
    (hinvalid : pipe (pre_pipeline ds2 r2) = Option.none) :
    getitem_loop pipe ds2 idx (d :: rest) =
      getitem_loop pipe { ds2 with data_infos := some (infos2.set idx (pre_pipeline ds2 r2)) } d rest := by
  simp only [getitem_loop, prepare_img, hinfos2, hr2, hinvalid]


theorem getitem_loop_reaches_valid (pipe : DataInfo → Option DataInfo)
    (ds : CustomDatasetState) (infos : List DataInfo)
    (hgood : ∀ i, i < infos.length → i ≠ 0 → pipeValidAt pipe ds infos i = true)
    (hbad0 : pipeValidAt pipe ds infos 0 = false) :
    ∀ (draws : List Nat) (ds2 : CustomDatasetState) (infos2 : List DataInfo) (idx : Nat),
      ds2.data_infos = some infos2 →
      ds2.img_prefix_path = ds.img_prefix_path →
      infos2.length = infos.length →
      (∀ i : Nat, infos2[i]? = infos[i]? ∨ infos2[i]? = (infos[i]?).map (pre_pipeline ds)) →
      idx < infos.length →
      (∀ x ∈ draws, x < infos.length) →
      (idx ≠ 0 ∨ ∃ x ∈ draws, x ≠ 0) →
      ∃ data ds3, getitem_loop pipe ds2 idx draws = GetItemOutcome.returns (some data) ds3 := by
  intro draws
  induction draws with
  | nil =>
    intro ds2 infos2 idx hinfos2 hpath hlen hcompat hidx hdraws hdisj
    have hne : idx ≠ 0 := by
      rcases hdisj with hne | ⟨x, hx, _⟩
      · exact hne
      · exact absurd hx (List.not_mem_nil x)
    obtain ⟨r, hr⟩ : ∃ r, infos[idx]? = some r :=
      ⟨infos[idx], List.getElem?_eq_getElem hidx⟩
    obtain ⟨r2, hr2, hprep⟩ := prepared_record_eq ds ds2 infos infos2 idx r hpath (hcompat idx) hr
    have hvalid := hgood idx hidx hne
    simp only [pipeValidAt, hr] at hvalid
    obtain ⟨data, hdata⟩ := Option.isSome_iff_exists.mp hvalid
    refine ⟨data, _, getitem_loop_returns_on_valid pipe ds2 infos2 idx r2 data [] hinfos2 hr2 ?_⟩
    rw [hprep, hdata]
  | cons d rest ih =>
    intro ds2 infos2 idx hinfos2 hpath hlen hcompat hidx hdraws hdisj
    obtain ⟨r, hr⟩ : ∃ r, infos[idx]? = some r :=
      ⟨infos[idx], List.getElem?_eq_getElem hidx⟩
    obtain ⟨r2, hr2, hprep⟩ := prepared_record_eq ds ds2 infos infos2 idx r hpath (hcompat idx) hr
    by_cases hidx0 : idx = 0
    · subst hidx0
      have hinvalid : pipe (pre_pipeline ds2 r2) = Option.none := by
        rw [hprep]
        simp only [pipeValidAt, hr] at hbad0
        cases hp : pipe (pre_pipeline ds r) with
        | none => rfl
        | some w => rw [hp] at hbad0; exact Bool.noConfusion hbad0
      rw [getitem_loop_step_on_invalid pipe ds2 infos2 0 r2 d rest hinfos2 hr2 hinvalid]
      have hdlt : d < infos.length := hdraws d (List.mem_cons_self d rest)
      have h0lt2 : (0 : Nat) < infos2.length := by
        rw [hlen]; exact hidx
      refine ih { ds2 with data_infos := some (infos2.set 0 (pre_pipeline ds2 r2)) }
        (infos2.set 0 (pre_pipeline ds2 r2)) d rfl hpath ?_ ?_ hdlt
        (fun x hx => hdraws x (List.mem_cons_of_mem d hx)) ?_
      · rw [List.length_set]; exact hlen
      · intro i
        by_cases hi0 : i = 0
        · subst hi0
          right
          rw [List.getElem?_set_eq_of_lt _ h0lt2, hprep, hr]
          rfl
        · rw [List.getElem?_set_ne (fun h => hi0 h.symm)]
          exact hcompat i
      · rcases hdisj with h0 | ⟨x, hx, hxne⟩
        · exact absurd rfl h0
        · by_cases hd0 : d = 0
          · subst hd0
            right
            rcases List.mem_cons.mp hx with hxd | hxrest
            · exact absurd hxd hxne
            · exact ⟨x, hxrest, hxne⟩
          · exact Or.inl hd0
    · obtain ⟨data, hdata⟩ := Option.isSome_iff_exists.mp (by
        have hvalid := hgood idx hidx hidx0
        simp only [pipeValidAt, hr] at hvalid
        exact hvalid)
      refine ⟨data, _, getitem_loop_returns_on_valid pipe ds2 infos2 idx r2 data (d :: rest) hinfos2 hr2 ?_⟩
      rw [hprep, hdata]

/-- C9: in training mode, on a dataset of at least two records whose
pipeline deterministically signals invalid exactly at index 0 and valid at
every other in-range index, getitem at index 0 terminates with a valid
(non-absent) result as soon as the uniformly random replacement oracle
(whose draws are always in range) eventually draws a non-zero index. -/
theorem getitem_train_retry_terminates (pipe : DataInfo → Option DataInfo)
    (ds : CustomDatasetState) (infos : List DataInfo) (draws : List Nat)
    (hmode : ds.test_mode = false)
    (hinfos : ds.data_infos = some infos)
    (hlen : 2 ≤ infos.length)
    (hbad0 : pipeValidAt pipe ds infos 0 = false)
    (hgood : ∀ i, i < infos.length → i ≠ 0 → pipeValidAt pipe ds infos i = true)
    (hdraws : ∀ x ∈ draws, x < infos.length)
    (hhit : ∃ x ∈ draws, x ≠ 0) :
    ∃ data ds2, getitem pipe ds draws 0 = GetItemOutcome.returns (some data) ds2 := by
  have h := getitem_loop_reaches_valid pipe ds infos hgood hbad0 draws ds infos 0
    hinfos rfl rfl (fun i => Or.inl rfl)
    (Nat.lt_of_lt_of_le (by decide) hlen) hdraws (Or.inr hhit)
  simpa [getitem, hmode] using h

/-- Witness for C9: two records, a pipeline that rejects exactly the
zero-width record at index 0, and the oracle drawing index 1 first. -/
theorem getitem_train_retry_terminates_witness :
    (2 ≤ ([({ img_info := { width := 0, height := 10 } } : DataInfo),
           { img_info := { width := 64, height := 64 } }] : List DataInfo).length) ∧
    pipeValidAt (fun r => if r.img_info.width = 0 then Option.none else some r)
      { CLASSES := Option.none,
        data_infos := some [{ img_info := { width := 0, height := 10 } },
                            { img_info := { width := 64, height := 64 } }],
        img_prefix_path := "w", test_mode := false, filter_empty_gt := true }
      [{ img_info := { width := 0, height := 10 } },
       { img_info := { width := 64, height := 64 } }] 0 = false ∧
    (∃ x ∈ [1], x ≠ 0) ∧
    (∃ data ds2, getitem (fun r => if r.img_info.width = 0 then Option.none else some r)
      { CLASSES := Option.none,
        data_infos := some [{ img_info := { width := 0, height := 10 } },
                            { img_info := { width := 64, height := 64 } }],
        img_prefix_path := "w", test_mode := false, filter_empty_gt := true } [1] 0 =
      GetItemOutcome.returns (some data) ds2) := by
  refine ⟨by decide, by decide, by decide, ?_⟩
  exact getitem_train_retry_terminates
    (fun r => if r.img_info.width = 0 then Option.none else some r)
    { CLASSES := Option.none,
      data_infos := some [{ img_info := { width := 0, height := 10 } },
                          { img_info := { width := 64, height := 64 } }],
      img_prefix_path := "w", test_mode := false, filter_empty_gt := true }
    [{ img_info := { width := 0, height := 10 } },
     { img_info := { width := 64, height := 64 } }] [1]
    rfl rfl (by decide) (by decide) (by decide) (by decide) (by decide)

theorem getitem_loop_runs_out_on_invalid (pipe : DataInfo → Option DataInfo)
    (ds2 : CustomDatasetState) (infos2 : List DataInfo) (idx : Nat) (r2 : DataInfo)
    (hinfos2 : ds2.data_infos = some infos2)
    (hr2 : infos2[idx]? = some r2)
    (hinvalid : pipe (pre_pipeline ds2 r2) = Option.none) :
    getitem_loop pipe ds2 idx [] = GetItemOutcome.runsOut
      { ds2 with data_infos := some (infos2.set idx (pre_pipeline ds2 r2)) } := by
  simp only [getitem_loop, prepare_img, hinfos2, hr2, hinvalid]

theorem getitem_loop_frame (pipe : DataInfo → Option DataInfo)
    (ds : CustomDatasetState) (infos : List DataInfo) :
    ∀ (draws : List Nat) (infos2 : List DataInfo) (idx : Nat),
      infos2.length = infos.length →
      (∀ i : Nat, infos2[i]? = infos[i]? ∨ infos2[i]? = (infos[i]?).map (pre_pipeline ds)) →
      idx < infos.length →
      (∀ x ∈ draws, x < infos.length) →
      ∃ infos3,
        ((∃ d, getitem_loop pipe { ds with data_infos := some infos2 } idx draws =
            GetItemOutcome.returns d { ds with data_infos := some infos3 }) ∨
          getitem_loop pipe { ds with data_infos := some infos2 } idx draws =
            GetItemOutcome.runsOut { ds with data_infos := some infos3 }) ∧
        infos3.length = infos.length ∧
        infos3[idx]? = (infos[idx]?).map (pre_pipeline ds) ∧
        (∀ i : Nat, infos3[i]? = infos[i]? ∨ infos3[i]? = (infos[i]?).map (pre_pipeline ds)) ∧
        (∀ i : Nat, infos2[i]? = (infos[i]?).map (pre_pipeline ds) →
          infos3[i]? = (infos[i]?).map (pre_pipeline ds)) := by
  intro draws
  induction draws with
  | nil =>
    intro infos2 idx hlen2 hcompat hidx hdraws
    have hr : infos[idx]? = some infos[idx] := List.getElem?_eq_getElem hidx
    obtain ⟨r2, hr2, hprep⟩ := prepared_record_eq ds { ds with data_infos := some infos2 }
      infos infos2 idx infos[idx] rfl (hcompat idx) hr
    have hidx2 : idx < infos2.length := by rw [hlen2]; exact hidx
    have hidx_a : (infos2.set idx (pre_pipeline { ds with data_infos := some infos2 } r2))[idx]? =
        (infos[idx]?).map (pre_pipeline ds) := by
      rw [List.getElem?_set_eq_of_lt _ hidx2, hprep, hr]
      rfl
    have hlen_a : (infos2.set idx (pre_pipeline { ds with data_infos := some infos2 } r2)).length =
        infos.length := by
      rw [List.length_set]; exact hlen2
    have hcompat_a : ∀ i : Nat,
        (infos2.set idx (pre_pipeline { ds with data_infos := some infos2 } r2))[i]? = infos[i]? ∨
        (infos2.set idx (pre_pipeline { ds with data_infos := some infos2 } r2))[i]? =
          (infos[i]?).map (pre_pipeline ds) := by
      intro i
      by_cases hi : i = idx
      · subst hi
        exact Or.inr hidx_a
      · rw [List.getElem?_set_ne (fun h => hi h.symm)]
        exact hcompat i
    have hmono_a : ∀ i : Nat, infos2[i]? = (infos[i]?).map (pre_pipeline ds) →
        (infos2.set idx (pre_pipeline { ds with data_infos := some infos2 } r2))[i]? =
          (infos[i]?).map (pre_pipeline ds) := by
      intro i hi
      by_cases hieq : i = idx
      · subst hieq
        exact hidx_a
      · rw [List.getElem?_set_ne (fun h => hieq h.symm)]
        exact hi
    cases hp : pipe (pre_pipeline { ds with data_infos := some infos2 } r2) with
    | some data =>
      exact ⟨infos2.set idx (pre_pipeline { ds with data_infos := some infos2 } r2),
        Or.inl ⟨some data,
          getitem_loop_returns_on_valid pipe { ds with data_infos := some infos2 }
            infos2 idx r2 data [] rfl hr2 hp⟩,
        hlen_a, hidx_a, hcompat_a, hmono_a⟩
    | none =>
      exact ⟨infos2.set idx (pre_pipeline { ds with data_infos := some infos2 } r2),
        Or.inr (getitem_loop_runs_out_on_invalid pipe { ds with data_infos := some infos2 }
          infos2 idx r2 rfl hr2 hp),
        hlen_a, hidx_a, hcompat_a, hmono_a⟩
  | cons d rest ih =>
    intro infos2 idx hlen2 hcompat hidx hdraws
    have hr : infos[idx]? = some infos[idx] := List.getElem?_eq_getElem hidx
    obtain ⟨r2, hr2, hprep⟩ := prepared_record_eq ds { ds with data_infos := some infos2 }
      infos infos2 idx infos[idx] rfl (hcompat idx) hr
    have hidx2 : idx < infos2.length := by rw [hlen2]; exact hidx
    have hidx_a : (infos2.set idx (pre_pipeline { ds with data_infos := some infos2 } r2))[idx]? =
        (infos[idx]?).map (pre_pipeline ds) := by
      rw [List.getElem?_set_eq_of_lt _ hidx2, hprep, hr]
      rfl
    have hlen_a : (infos2.set idx (pre_pipeline { ds with data_infos := some infos2 } r2)).length =
        infos.length := by
      rw [List.length_set]; exact hlen2
    have hcompat_a : ∀ i : Nat,
        (infos2.set idx (pre_pipeline { ds with data_infos := some infos2 } r2))[i]? = infos[i]? ∨
        (infos2.set idx (pre_pipeline { ds with data_infos := some infos2 } r2))[i]? =
          (infos[i]?).map (pre_pipeline ds) := by
      intro i
      by_cases hi : i = idx
      · subst hi
        exact Or.inr hidx_a
      · rw [List.getElem?_set_ne (fun h => hi h.symm)]
        exact hcompat i
    have hmono_a : ∀ i : Nat, infos2[i]? = (infos[i]?).map (pre_pipeline ds) →
        (infos2.set idx (pre_pipeline { ds with data_infos := some infos2 } r2))[i]? =
          (infos[i]?).map (pre_pipeline ds) := by
      intro i hi
      by_cases hieq : i = idx
      · subst hieq
        exact hidx_a
      · rw [List.getElem?_set_ne (fun h => hieq h.symm)]
        exact hi
    cases hp : pipe (pre_pipeline { ds with data_infos := some infos2 } r2) with
    | some data =>
      exact ⟨infos2.set idx (pre_pipeline { ds with data_infos := some infos2 } r2),
        Or.inl ⟨some data,
          getitem_loop_returns_on_valid pipe { ds with data_infos := some infos2 }
            infos2 idx r2 data (d :: rest) rfl hr2 hp⟩,
        hlen_a, hidx_a, hcompat_a, hmono_a⟩
    | none =>
      have hstep := getitem_loop_step_on_invalid pipe { ds with data_infos := some infos2 }
        infos2 idx r2 d rest rfl hr2 hp
      have hdlt : d < infos.length := hdraws d (List.mem_cons_self d rest)
      obtain ⟨infos3, houtcome, hlen3, _, hcompat3, hmono3⟩ :=
        ih (infos2.set idx (pre_pipeline { ds with data_infos := some infos2 } r2)) d
          hlen_a hcompat_a hdlt (fun x hx => hdraws x (List.mem_cons_of_mem d hx))
      refine ⟨infos3, ?_, hlen3, hmono3 idx hidx_a, hcompat3,
        fun i hi => hmono3 i (hmono_a i hi)⟩
      rw [hstep]
      exact houtcome

/-- C8 amended: in either mode, retrieving a sample via getitem at an
in-range index (with in-range retry draws) does mutate the stored data-info
records: the outcome state is the same dataset with only data_infos
replaced (CLASSES, the resolved image prefix and the mode flags are
unchanged, and the pipeline object lives outside the state); the record at
the queried index is overwritten in place with its pre_pipeline image
(img_prefix and bbox_fields keys injected), records at retried drawn
indices may be overwritten the same way, and every stored record is at all
times either the original loaded record or its pre_pipeline image. -/
theorem getitem_mutation_frame (pipe : DataInfo → Option DataInfo)
    (ds : CustomDatasetState) (infos : List DataInfo) (draws : List Nat) (idx : Nat)
    (hinfos : ds.data_infos = some infos)
    (hidx : idx < infos.length)
    (hdraws : ∀ x ∈ draws, x < infos.length) :
    ∃ infos2,
      ((∃ d, getitem pipe ds draws idx =
          GetItemOutcome.returns d { ds with data_infos := some infos2 }) ∨
        getitem pipe ds draws idx =
          GetItemOutcome.runsOut { ds with data_infos := some infos2 }) ∧
      infos2.length = infos.length ∧
      infos2[idx]? = (infos[idx]?).map (pre_pipeline ds) ∧
      (∀ i : Nat, infos2[i]? = infos[i]? ∨ infos2[i]? = (infos[i]?).map (pre_pipeline ds)) := by
  obtain ⟨c, di, ip, tm, fe⟩ := ds
  have hdi : di = some infos := hinfos
  subst hdi
  cases tm with
  | false =>
    obtain ⟨infos2, hout, hlen2, hidx2, hcompat2, _⟩ :=
      getitem_loop_frame pipe ⟨c, some infos, ip, false, fe⟩ infos draws infos idx rfl
        (fun _ => Or.inl rfl) hidx hdraws
    exact ⟨infos2, hout, hlen2, hidx2, hcompat2⟩
  | true =>
    have hr : infos[idx]? = some infos[idx] := List.getElem?_eq_getElem hidx
    refine ⟨infos.set idx (pre_pipeline ⟨c, some infos, ip, true, fe⟩ infos[idx]),
      Or.inl ⟨pipe (pre_pipeline ⟨c, some infos, ip, true, fe⟩ infos[idx]), ?_⟩, ?_, ?_, ?_⟩
    · simp only [getitem, prepare_img, hr, if_true]
    · rw [List.length_set]
    · rw [List.getElem?_set_eq_of_lt _ hidx, hr]
      rfl
    · intro i
      by_cases hi : i = idx
      · subst hi
        refine Or.inr ?_
        rw [List.getElem?_set_eq_of_lt _ hidx, hr]
        rfl
      · rw [List.getElem?_set_ne (fun h => hi h.symm)]
        exact Or.inl rfl

/-- Witness for the amended C8: a training-mode two-record dataset whose
pipeline rejects the zero-width record at index 0; getitem at index 0 with
the oracle drawing index 1 retries once, mutating both prepared records. -/
theorem getitem_mutation_frame_witness :
    ((0 : Nat) < ([({ img_info := { width := 0, height := 5 } } : DataInfo),
                   { img_info := { width := 9, height := 9 } }] : List DataInfo).length) ∧
    (∀ x ∈ [1], x < ([({ img_info := { width := 0, height := 5 } } : DataInfo),
                      { img_info := { width := 9, height := 9 } }] : List DataInfo).length) ∧
    (∃ infos2,
      ((∃ d, getitem (fun r => if r.img_info.width = 0 then Option.none else some r)
          { CLASSES := Option.none,
            data_infos := some [{ img_info := { width := 0, height := 5 } },
                                { img_info := { width := 9, height := 9 } }],
            img_prefix_path := "mut", test_mode := false, filter_empty_gt := true } [1] 0 =
          GetItemOutcome.returns d
            { CLASSES := Option.none, data_infos := some infos2,
              img_prefix_path := "mut", test_mode := false, filter_empty_gt := true }) ∨
        getitem (fun r => if r.img_info.width = 0 then Option.none else some r)
          { CLASSES := Option.none,
            data_infos := some [{ img_info := { width := 0, height := 5 } },
                                { img_info := { width := 9, height := 9 } }],
            img_prefix_path := "mut", test_mode := false, filter_empty_gt := true } [1] 0 =
          GetItemOutcome.runsOut
            { CLASSES := Option.none, data_infos := some infos2,
              img_prefix_path := "mut", test_mode := false, filter_empty_gt := true }) ∧
      infos2.length = ([({ img_info := { width := 0, height := 5 } } : DataInfo),
                        { img_info := { width := 9, height := 9 } }] : List DataInfo).length ∧
      infos2[0]? = (([({ img_info := { width := 0, height := 5 } } : DataInfo),
                      { img_info := { width := 9, height := 9 } }] : List DataInfo)[0]?).map
        (pre_pipeline { CLASSES := Option.none,
                        data_infos := some [{ img_info := { width := 0, height := 5 } },
                                            { img_info := { width := 9, height := 9 } }],
                        img_prefix_path := "mut", test_mode := false,
                        filter_empty_gt := true }) ∧
      (∀ i : Nat,
        infos2[i]? = ([({ img_info := { width := 0, height := 5 } } : DataInfo),
                       { img_info := { width := 9, height := 9 } }] : List DataInfo)[i]? ∨
        infos2[i]? = (([({ img_info := { width := 0, height := 5 } } : DataInfo),
                        { img_info := { width := 9, height := 9 } }] : List DataInfo)[i]?).map
          (pre_pipeline { CLASSES := Option.none,
                          data_infos := some [{ img_info := { width := 0, height := 5 } },
                                              { img_info := { width := 9, height := 9 } }],
                          img_prefix_path := "mut", test_mode := false,
                          filter_empty_gt := true }))) := by
  refine ⟨by decide, by decide, ?_⟩
  exact getitem_mutation_frame (fun r => if r.img_info.width = 0 then Option.none else some r)
    { CLASSES := Option.none,
      data_infos := some [{ img_info := { width := 0, height := 5 } },
                          { img_info := { width := 9, height := 9 } }],
      img_prefix_path := "mut", test_mode := false, filter_empty_gt := true }
    [{ img_info := { width := 0, height := 5 } }, { img_info := { width := 9, height := 9 } }]
    [1] 0 rfl (by decide) (by decide)
